import Mathlib

set_option maxRecDepth 10000

namespace NVMe

/-- Modulus of the C u32 type. -/
def U32 : Nat := 2 ^ 32

/-- Modulus of the C u64 type. -/
def U64 : Nat := 2 ^ 64

/-- Constant NVME_LBA_SIZE from nvme.h. -/
def NVME_LBA_SIZE : Nat := 512

/-- Constant NVME_PAGE_SIZE from nvmesharedmemallocator.h. -/
def NVME_PAGE_SIZE : Nat := 4096

/-- Constant NSID from nvme.cpp: the only supported namespace id. -/
def NSID : Nat := 1

/-- Status code NVME_STATUS_OK from nvme.h. -/
def NVME_STATUS_OK : Int := 0

/-- Status code NVME_STATUS_ERROR_BAD_PARAM from nvme.h. -/
def NVME_STATUS_ERROR_BAD_PARAM : Int := -1

/-- Status code NVME_STATUS_ERROR_NO_RESOURCE from nvme.h. -/
def NVME_STATUS_ERROR_NO_RESOURCE : Int := -2

/-- Status code NVME_STATUS_ERROR_CONTROLLER from nvme.h. -/
def NVME_STATUS_ERROR_CONTROLLER : Int := -3

/-- Status code NVME_STATUS_ERROR_TIMEOUT from nvme.h. -/
def NVME_STATUS_ERROR_TIMEOUT : Int := -4

/-- Status code NVME_STATUS_ERROR_LBA_RANGE from nvme.h. -/
def NVME_STATUS_ERROR_LBA_RANGE : Int := -6

/-- Mask NVME_REG_CAP_DSTRD__MASK from nvme.cpp, the constant 0x0F shifted left by 32. -/
def NVME_REG_CAP_DSTRD_MASK : Nat := 0xF00000000

/-- Shift NVME_REG_CAP_DSTRD__SHIFT from nvme.cpp. -/
def NVME_REG_CAP_DSTRD_SHIFT : Nat := 32

/-- Macro DOORBELL_STRIDE from nvme.cpp line 88: 1 << (dstrd + 2), stored into the
32-bit unsigned member m_nDoorbellStride. -/
def DOORBELL_STRIDE (dstrd : Nat) : Nat := (1 <<< (dstrd + 2)) % U32

/-- Computation of m_nDoorbellStride in CNVMeDevice Initialize, nvme.cpp lines 291-292.
The source applies the left shift operator to the already-masked CAP value
(instead of shifting the field down), with u64 wrap-around on the shift result. -/
def doorbellStride (caps : Nat) : Nat :=
  DOORBELL_STRIDE (((caps &&& NVME_REG_CAP_DSTRD_MASK) <<< NVME_REG_CAP_DSTRD_SHIFT) % U64)

/-- Macro NVME_DOORBELL_SQ_OFFSET from nvme.cpp line 90: 0x1000 + index*stride*2. -/
def sqDoorbellOffset (caps index : Nat) : Nat :=
  0x1000 + index * doorbellStride caps * 2

/-- Macro NVME_DOORBELL_CQ_OFFSET from nvme.cpp line 91: the SQ offset plus 4. -/
def cqDoorbellOffset (caps index : Nat) : Nat :=
  0x1000 + index * doorbellStride caps * 2 + 4

/-- Modelled from the spec: the DSTRD field of the CAP register is bits 32..35. -/
def capDSTRD (caps : Nat) : Nat := caps / 2 ^ 32 % 16

/-- Modelled from the spec: the doorbell stride the spec derives, 4 << DSTRD. -/
def specDoorbellStride (dstrd : Nat) : Nat := 4 <<< dstrd

/-- Modelled from the spec: SQ doorbell offset for queue 1 is 0x1000 + 2*(4<<DSTRD). -/
def specSqDoorbellOffset (dstrd : Nat) : Nat := 0x1000 + 2 * specDoorbellStride dstrd

/-- Mask NVME_REG_CC_IOCQES__MASK from nvme.cpp, the constant 0xF shifted left by 20. -/
def NVME_REG_CC_IOCQES_MASK : Nat := 0xF00000

/-- Mask NVME_REG_CC_IOSQES__MASK from nvme.cpp, the constant 0xF shifted left by 16. -/
def NVME_REG_CC_IOSQES_MASK : Nat := 0xF0000

/-- Constant NVME_REG_CC_IOCQES_16B from nvme.cpp. -/
def NVME_REG_CC_IOCQES_16B : Nat := 4

/-- Constant NVME_REG_CC_IOSQES_64B from nvme.cpp. -/
def NVME_REG_CC_IOSQES_64B : Nat := 6

/-- Bit NVME_REG_CC_EN from nvme.cpp. -/
def NVME_REG_CC_EN : Nat := 1

/-- Bitwise x AND NOT mask over u32 values, written without a complement by using
that the mask bits and the complement bits of x are disjoint. -/
def u32AndNot (x mask : Nat) : Nat := x % U32 - (x % U32 &&& mask % U32)

/-- Value written to CC in the controller-enable step of Initialize, nvme.cpp lines
332-337.  The source clears the IOCQES mask OR-ed with itself (the IOSQES field is
never cleared), then ORs in IOSQES=6, IOCQES=4 and EN. -/
def ccEnableValue (cc : Nat) : Nat :=
  let cc1 := u32AndNot cc (NVME_REG_CC_IOCQES_MASK ||| NVME_REG_CC_IOCQES_MASK)
  (cc1 ||| (NVME_REG_CC_IOSQES_64B <<< 16) ||| (NVME_REG_CC_IOCQES_16B <<< 20) |||
    NVME_REG_CC_EN) % U32

/-- IOSQES field of a CC register value, bits 16..19. -/
def ccIOSQES (cc : Nat) : Nat := cc / 2 ^ 16 % 16

/-- IOCQES field of a CC register value, bits 20..23. -/
def ccIOCQES (cc : Nat) : Nat := cc / 2 ^ 20 % 16

/-- EN bit of a CC register value, bit 0. -/
def ccEN (cc : Nat) : Nat := cc % 2

/-- Mask CQE_STATUS_SCT__MASK from nvme.cpp, the constant 7 shifted left by 9. -/
def CQE_STATUS_SCT_MASK : Nat := 0xE00

/-- Mask CQE_STATUS_SC__MASK from nvme.cpp, the constant 0xFF shifted left by 1. -/
def CQE_STATUS_SC_MASK : Nat := 0x1FE

/-- Status Code Type decode of a completion status word, nvme.cpp line 768. -/
def cqeSCT (status : Nat) : Nat := (status &&& CQE_STATUS_SCT_MASK) >>> 9

/-- Status Code decode of a completion status word, nvme.cpp line 769. -/
def cqeSC (status : Nat) : Nat := (status &&& CQE_STATUS_SC_MASK) >>> 1

/-- Result returned by PollForCompletion for a matched completion entry,
nvme.cpp lines 768-781 and 814. -/
def completionResult (status : Nat) : Int :=
  if cqeSCT status ≠ 0 ∨ cqeSC status ≠ 0 then
    if cqeSCT status = 0 ∧ cqeSC status = 0x80 then NVME_STATUS_ERROR_LBA_RANGE
    else NVME_STATUS_ERROR_CONTROLLER
  else NVME_STATUS_OK

/-- Completion-queue side of a queue pair, fields nCqHead, bCqPhase and nEntries
of struct TQueue in nvme.h. -/
structure QueueState where
  cqHead : Nat
  cqPhase : Bool
  entries : Nat
deriving DecidableEq

/-- Head advance and phase toggle performed by PollForCompletion on a match,
nvme.cpp lines 762-764. -/
def consumeCompletion (q : QueueState) : QueueState :=
  let h := (q.cqHead + 1) % q.entries
  { q with cqHead := h, cqPhase := if h = 0 then !q.cqPhase else q.cqPhase }

/-- Queue state established by CreateAdminQueues (nvme.cpp lines 595-597) and by
CreateIoQueue (lines 637-639): head 0, phase true, 64 entries. -/
def initialQueueState : QueueState := { cqHead := 0, cqPhase := true, entries := 64 }

/-- Iterated completion consumption. -/
def consumeN : Nat → QueueState → QueueState
  | 0, q => q
  | n + 1, q => consumeN n (consumeCompletion q)

/-- Number of phase toggles over the first n consumed completions. -/
def toggleCount : Nat → QueueState → Nat
  | 0, _ => 0
  | n + 1, q =>
    (if (consumeCompletion q).cqPhase ≠ q.cqPhase then 1 else 0) +
      toggleCount n (consumeCompletion q)

/-- PhysicalOf from nvmehelper.h: the virtual address OR-ed with the PCIe DMA base. -/
def physicalOf (dmaBase addr : Nat) : Nat := addr ||| dmaBase

/-- Constant PRP_ENTRY_SIZE from nvmeprp.cpp. -/
def PRP_ENTRY_SIZE : Nat := 8

/-- Outcome of CNVMePRP BuildForBuffer: the PRP1 and PRP2 values, the 8-byte entries
held by the allocated PRP list region (empty when no list is needed), and the number
of pages of that region. -/
structure PRPResult where
  prp1 : Nat
  prp2 : Nat
  listContent : List Nat
  listPages : Nat
deriving DecidableEq

/-- CNVMePRP BuildForBuffer, nvmeprp.cpp lines 50-119.  allocResult is the address
the allocator hands back for the PRP list region when that call is reached; none
models allocation failure.  The returned listContent is the full content of the
zeroed list region after the fill loop of lines 103-110. -/
def buildForBuffer (dmaBase : Nat) (allocResult : Option Nat) (buf len : Nat) :
    Option PRPResult :=
  if buf = 0 ∨ len = 0 then none
  else
    let prp1 := physicalOf dmaBase buf
    let offsetInFirstPage := buf &&& (NVME_PAGE_SIZE - 1)
    let firstPageRemaining := NVME_PAGE_SIZE - offsetInFirstPage
    if len ≤ firstPageRemaining then
      some { prp1 := prp1, prp2 := 0, listContent := [], listPages := 0 }
    else
      let secondPageVirt := buf - (buf &&& (NVME_PAGE_SIZE - 1)) + NVME_PAGE_SIZE
      let remaining := len - firstPageRemaining
      if remaining ≤ NVME_PAGE_SIZE then
        some { prp1 := prp1, prp2 := physicalOf dmaBase secondPageVirt,
               listContent := [], listPages := 0 }
      else
        let entriesPerPage := NVME_PAGE_SIZE / PRP_ENTRY_SIZE
        let neededEntries := (remaining + NVME_PAGE_SIZE - 1) / NVME_PAGE_SIZE
        let pages := (neededEntries + entriesPerPage - 1) / entriesPerPage
        match allocResult with
        | none => none
        | some listAddr =>
          some { prp1 := prp1,
                 prp2 := physicalOf dmaBase listAddr,
                 listContent :=
                   (List.range neededEntries).map
                     (fun i => physicalOf dmaBase (secondPageVirt + i * NVME_PAGE_SIZE)) ++
                   List.replicate (pages * entriesPerPage - neededEntries) 0,
                 listPages := pages }

/-- Constant NVME_BLOCK_MAGIC from nvmesharedmemallocator.h. -/
def NVME_BLOCK_MAGIC : Nat := 0x4E564D45

/-- Constant NVME_BLOCK_SIZE from nvmesharedmemallocator.h. -/
def NVME_BLOCK_SIZE : Nat := 4096

/-- Constant NVME_BLOCK_ALIGN from nvmesharedmemallocator.h. -/
def NVME_BLOCK_ALIGN : Nat := 4096

/-- Constant NVME_BLOCK_BOUNDARY from nvmesharedmemallocator.h. -/
def NVME_BLOCK_BOUNDARY : Nat := 0x100000

/-- Byte size of struct TNVMeBlockHeader (four u32 fields plus one 8-byte pointer). -/
def HEADER_SIZE : Nat := 24

/-- Fields of struct TNVMeBlockHeader written by Allocate (the free-list link is
represented by the free-list itself). -/
structure BlockHeader where
  nMagic : Nat
  nSize : Nat
  nAlign : Nat
  nBoundary : Nat
deriving DecidableEq

/-- State of CNVMeSharedMemAllocator: the bump cursor m_nMemStart, the arena end
m_nMemEnd, the free list (front is m_pFreeList, links via pNext), and the headers
placed in the arena, keyed by header address (front entry shadows older ones). -/
structure AllocState where
  memStart : Nat
  memEnd : Nat
  freeList : List Nat
  headers : List (Nat × BlockHeader)
deriving DecidableEq

/-- Lookup of the header stored at an address. -/
def findHeader : List (Nat × BlockHeader) → Nat → Option BlockHeader
  | [], _ => none
  | (a, h) :: rest, addr => if a = addr then some h else findHeader rest addr

/-- Bitwise x AND NOT mask, written without a complement by using that the mask bits
and the remaining bits of x are disjoint. -/
def alignDown (x mask : Nat) : Nat := x - (x &&& mask)

/-- Data address produced by the bump path of Allocate, nvmesharedmemallocator.cpp
lines 82-97: skip the header, round up to the alignment, and round up to the
boundary if the aligned block would cross it. -/
def bumpDataAddr (s : AllocState) (size align boundary : Nat) : Nat :=
  let m1 := s.memStart + HEADER_SIZE
  let m2 := if m1 &&& (align - 1) ≠ 0 then alignDown (m1 + (align - 1)) (align - 1) else m1
  if alignDown m2 (boundary - 1) ≠ alignDown (m2 + size - 1) (boundary - 1) then
    alignDown (m2 + (boundary - 1)) (boundary - 1)
  else m2

/-- Bump path of Allocate, nvmesharedmemallocator.cpp lines 82-118: place a header
just below the data address, advance the cursor by the size, and fail (with the
cursor left advanced, as in the source) past the arena end. -/
def bumpAllocate (s : AllocState) (size align boundary : Nat) :
    Option Nat × AllocState :=
  let m3 := bumpDataAddr s size align boundary
  let headerAddr := m3 - HEADER_SIZE
  let m4 := m3 + size
  if s.memEnd < m4 then (none, { s with memStart := m4 })
  else
    (some m3,
     { s with
         memStart := m4,
         headers := (headerAddr,
           { nMagic := NVME_BLOCK_MAGIC, nSize := size, nAlign := align,
             nBoundary := boundary }) :: s.headers })

/-- Allocate, nvmesharedmemallocator.cpp lines 48-119: a request fitting the
canonical block specification pops the free list when possible and is otherwise
promoted to the canonical size/alignment/boundary before bump allocation. -/
def allocate (s : AllocState) (size align boundary : Nat) :
    Option Nat × AllocState :=
  if size ≤ NVME_BLOCK_SIZE ∧ align ≤ NVME_BLOCK_ALIGN ∧ boundary ≤ NVME_BLOCK_BOUNDARY then
    match s.freeList with
    | headerAddr :: rest => (some (headerAddr + HEADER_SIZE), { s with freeList := rest })
    | [] => bumpAllocate s NVME_BLOCK_SIZE NVME_BLOCK_ALIGN NVME_BLOCK_BOUNDARY
  else bumpAllocate s size align boundary

/-- Free, nvmesharedmemallocator.cpp lines 121-141: a block whose header records the
canonical specification is pushed on the free list; any other block is logged and
leaked (the state is unchanged). -/
def free (s : AllocState) (dataAddr : Nat) : AllocState :=
  let headerAddr := dataAddr - HEADER_SIZE
  match findHeader s.headers headerAddr with
  | none => s
  | some h =>
    if h.nSize = NVME_BLOCK_SIZE ∧ h.nAlign = NVME_BLOCK_ALIGN ∧
        h.nBoundary = NVME_BLOCK_BOUNDARY then
      { s with freeList := headerAddr :: s.freeList }
    else s

/-- One allocate-then-free cycle of a canonical 4 KiB / 4 KiB / 1 MiB block. -/
def allocFreeCycle (s : AllocState) : AllocState :=
  match allocate s NVME_BLOCK_SIZE NVME_BLOCK_ALIGN NVME_BLOCK_BOUNDARY with
  | (none, s1) => s1
  | (some addr, s1) => free s1 addr

/-- Iterated allocate-then-free cycles. -/
def cycleN : Nat → AllocState → AllocState
  | 0, s => s
  | n + 1, s => cycleN n (allocFreeCycle s)

/-- Device state relevant to Read, Write and Seek: the byte cursor m_ulOffset, the
namespace size m_ulNamespaceSize, and the I/O queue indices and phase. -/
structure DeviceState where
  ulOffset : Nat
  namespaceSize : Nat
  sqTail : Nat
  cqHead : Nat
  cqPhase : Bool
deriving DecidableEq

/-- Fields of the TNVMeCommand slot populated by SubmitCommand, nvme.cpp lines
699-711 (the remaining fields are zeroed). -/
structure SubmittedCommand where
  opc : Nat
  cid : Nat
  nsid : Nat
  prp1 : Nat
  prp2 : Nat
  cdw10 : Nat
  cdw11 : Nat
  cdw12 : Nat
deriving DecidableEq

/-- Environment of one Read or Write call: whether IS_CACHE_ALIGNED holds for the
caller's buffer, whether the bounce-buffer heap allocation succeeds, the bounce
buffer's address, the allocator result for a PRP list region, and the status word
of the completion entry matched by PollForCompletion (none models a timeout). -/
structure IoEnvironment where
  cacheAligned : Bool
  dmaAllocOk : Bool
  bounceAddr : Nat
  prpListAlloc : Option Nat
  completion : Option Nat
deriving DecidableEq

/-- SubmitCommand on the I/O queue followed by PollForCompletion, nvme.cpp lines
688-725 and 727-815: the CID is the SQ tail, the tail advances modulo 64 before the
SQ doorbell write, a matched completion advances the CQ head (toggling the phase on
wrap) before the CQ doorbell write, and the decoded status is returned. -/
def submitIoCommand (env : IoEnvironment) (opc nsid cdw10 cdw11 cdw12 prp1 prp2 : Nat)
    (s : DeviceState) : Int × DeviceState × List SubmittedCommand :=
  let cid := s.sqTail % 2 ^ 16
  let cmd : SubmittedCommand :=
    { opc := opc, cid := cid, nsid := nsid, prp1 := prp1, prp2 := prp2,
      cdw10 := cdw10, cdw11 := cdw11, cdw12 := cdw12 }
  let s1 := { s with sqTail := (s.sqTail + 1) % 64 }
  match env.completion with
  | none => (NVME_STATUS_ERROR_TIMEOUT, s1, [cmd])
  | some status =>
    let h := (s1.cqHead + 1) % 64
    let s2 := { s1 with cqHead := h, cqPhase := if h = 0 then !s1.cqPhase else s1.cqPhase }
    (completionResult status, s2, [cmd])

/-- IoPassThrough, nvme.cpp lines 660-679: build the PRPs for blocks*512 bytes, then
submit the NVM command with the low LBA dword in CDW10, the high LBA dword in CDW11
and blocks-1 (as u32) in CDW12. -/
def ioPassThrough (env : IoEnvironment) (dmaBase nsid lba blocks bufAddr : Nat)
    (isWrite : Bool) (s : DeviceState) : Int × DeviceState × List SubmittedCommand :=
  match buildForBuffer dmaBase env.prpListAlloc bufAddr (blocks * NVME_LBA_SIZE) with
  | none => (NVME_STATUS_ERROR_NO_RESOURCE, s, [])
  | some prp =>
    submitIoCommand env (if isWrite then 1 else 2) nsid
      (lba % U32) (lba / 2 ^ 32 % U32) ((blocks + (U32 - 1)) % U32)
      prp.prp1 prp.prp2 s

/-- Read, nvme.cpp lines 432-485: reject a misaligned cursor, store the cursor
divided by 512 into a 32-bit unsigned local (nLBA, line 444), reject a zero or
misaligned count, fall back to a bounce buffer when the caller's buffer is not cache
aligned, and forward to IoPassThrough; on success the byte count is returned. -/
def deviceRead (env : IoEnvironment) (dmaBase bufAddr count : Nat) (s : DeviceState) :
    Int × DeviceState × List SubmittedCommand :=
  if s.ulOffset &&& (NVME_LBA_SIZE - 1) ≠ 0 then (NVME_STATUS_ERROR_BAD_PARAM, s, [])
  else
    let nLBA := s.ulOffset / NVME_LBA_SIZE % U32
    if count = 0 ∨ count &&& (NVME_LBA_SIZE - 1) ≠ 0 then (NVME_STATUS_ERROR_BAD_PARAM, s, [])
    else if env.cacheAligned = false ∧ env.dmaAllocOk = false then
      (NVME_STATUS_ERROR_NO_RESOURCE, s, [])
    else
      let transferAddr := if env.cacheAligned then bufAddr else env.bounceAddr
      let r := ioPassThrough env dmaBase NSID nLBA (count / NVME_LBA_SIZE % U32)
        transferAddr false s
      if r.1 ≠ NVME_STATUS_OK then r else (Int.ofNat count, r.2.1, r.2.2)

/-- Write, nvme.cpp lines 487-539: identical validation (NVME_READ_ONLY is not
defined), with the write opcode and a copy into the bounce buffer when used. -/
def deviceWrite (env : IoEnvironment) (dmaBase bufAddr count : Nat) (s : DeviceState) :
    Int × DeviceState × List SubmittedCommand :=
  if s.ulOffset &&& (NVME_LBA_SIZE - 1) ≠ 0 then (NVME_STATUS_ERROR_BAD_PARAM, s, [])
  else
    let nLBA := s.ulOffset / NVME_LBA_SIZE % U32
    if count = 0 ∨ count &&& (NVME_LBA_SIZE - 1) ≠ 0 then (NVME_STATUS_ERROR_BAD_PARAM, s, [])
    else if env.cacheAligned = false ∧ env.dmaAllocOk = false then
      (NVME_STATUS_ERROR_NO_RESOURCE, s, [])
    else
      let transferAddr := if env.cacheAligned then bufAddr else env.bounceAddr
      let r := ioPassThrough env dmaBase NSID nLBA (count / NVME_LBA_SIZE % U32)
        transferAddr true s
      if r.1 ≠ NVME_STATUS_OK then r else (Int.ofNat count, r.2.1, r.2.2)

/-- Seek, nvme.cpp lines 541-550: unchecked assignment of the byte cursor. -/
def deviceSeek (ulOffset : Nat) (s : DeviceState) : Nat × DeviceState :=
  (ulOffset, { s with ulOffset := ulOffset })

/-- Device state with the cursor at byte offset 2^41, i.e. LBA 2^32. -/
def bigOffsetState : DeviceState :=
  { ulOffset := 2 ^ 41, namespaceSize := 2 ^ 50, sqTail := 0, cqHead := 0, cqPhase := true }

/-- Environment with a cache-aligned buffer and a successful completion whose status
word carries only the phase bit. -/
def okEnv : IoEnvironment :=
  { cacheAligned := true, dmaAllocOk := true, bounceAddr := 0, prpListAlloc := none,
    completion := some 1 }

end NVMe

namespace NVMe

theorem and_4095_eq_mod (n : Nat) : n &&& 4095 = n % 4096 := by
  have h := Nat.and_pow_two_sub_one_eq_mod n 12
  norm_num at h
  exact h

theorem and_511_eq_mod (n : Nat) : n &&& 511 = n % 512 := by
  have h := Nat.and_pow_two_sub_one_eq_mod n 9
  norm_num at h
  exact h

theorem shiftLeft32_mod_u64_eq_zero (caps : Nat) :
    ((caps &&& NVME_REG_CAP_DSTRD_MASK) <<< NVME_REG_CAP_DSTRD_SHIFT) % U64 = 0 := by
  have hlow : (caps &&& NVME_REG_CAP_DSTRD_MASK) % 2 ^ 32 = 0 := by
    rw [← Nat.and_pow_two_sub_one_eq_mod, Nat.and_assoc]
    have h0 : (NVME_REG_CAP_DSTRD_MASK &&& (2 ^ 32 - 1)) = 0 := by decide
    rw [h0, Nat.and_zero]
  obtain ⟨k, hk⟩ := Nat.dvd_of_mod_eq_zero hlow
  rw [NVME_REG_CAP_DSTRD_SHIFT, Nat.shiftLeft_eq, hk, U64]
  have : 2 ^ 32 * k * 2 ^ 32 = k * 2 ^ 64 := by ring
  rw [this, Nat.mul_mod_left]

theorem doorbellStride_eq_four (caps : Nat) : doorbellStride caps = 4 := by
  rw [doorbellStride, shiftLeft32_mod_u64_eq_zero]
  decide

/-- Claim C1: the spec requires the queue-1 SQ doorbell at 0x1000 + 2*(4<<DSTRD)
and the CQ doorbell 4 bytes later, for every DSTRD in 0..3 read from CAP.  The code
shifts the masked DSTRD field left by 32 instead of right (nvme.cpp line 292), so the
computed stride is 4 for every CAP value; at DSTRD = 1 (CAP = 2^32) the code writes
the queue-1 SQ doorbell at 0x1008 while the claim requires 0x1010. -/
theorem doorbell_stride_code_bug :
    (∀ caps : Nat, doorbellStride caps = 4) ∧
    sqDoorbellOffset (2 ^ 32) 1 = 0x1008 ∧
    cqDoorbellOffset (2 ^ 32) 1 = 0x100C ∧
    capDSTRD (2 ^ 32) = 1 ∧
    specSqDoorbellOffset (capDSTRD (2 ^ 32)) = 0x1010 ∧
    sqDoorbellOffset (2 ^ 32) 1 ≠ specSqDoorbellOffset (capDSTRD (2 ^ 32)) := by
  refine ⟨doorbellStride_eq_four, ?_, ?_, ?_, ?_, ?_⟩ <;>
    simp [sqDoorbellOffset, cqDoorbellOffset, doorbellStride_eq_four, capDSTRD,
      specSqDoorbellOffset, specDoorbellStride] <;> decide

/-- Claim C3: the spec requires the CC value written in the controller-enable step to
have IOSQES = 6 for every prior CC value.  Because the clear mask at nvme.cpp line 333
ORs the IOCQES mask with itself (the IOSQES field is never cleared), a prior CC of
0x10000 (IOSQES field 1) yields a written IOSQES field of 7; IOCQES and EN are set as
claimed. -/
theorem cc_enable_code_bug :
    ccIOSQES (ccEnableValue 0x10000) = 7 ∧
    ccIOSQES (ccEnableValue 0x10000) ≠ 6 ∧
    ccIOCQES (ccEnableValue 0x10000) = 4 ∧
    ccEN (ccEnableValue 0x10000) = 1 ∧
    ccIOSQES (ccEnableValue 0) = 6 := by
  decide

/-- Claim C6: for a completion entry matched by PollForCompletion, the result is OK
exactly when SCT = 0 and SC = 0, LBA_RANGE (-6) exactly when SCT = 0 and SC = 0x80,
and CONTROLLER (-3) for every other combination with SCT or SC non-zero. -/
theorem completion_status_decode (status : Nat) :
    (completionResult status = 0 ↔ cqeSCT status = 0 ∧ cqeSC status = 0) ∧
    (completionResult status = -6 ↔ cqeSCT status = 0 ∧ cqeSC status = 0x80) ∧
    (completionResult status = -3 ↔
      (cqeSCT status ≠ 0 ∨ cqeSC status ≠ 0) ∧
      ¬(cqeSCT status = 0 ∧ cqeSC status = 0x80)) := by
  unfold completionResult NVME_STATUS_OK NVME_STATUS_ERROR_LBA_RANGE
    NVME_STATUS_ERROR_CONTROLLER
  by_cases h1 : cqeSCT status = 0 <;> by_cases h2 : cqeSC status = 0 <;>
    by_cases h3 : cqeSC status = 0x80 <;> simp [h1, h2, h3] <;> omega

/-- Witness for claim C6 at the concrete status word 2 (SCT = 0, SC = 1). -/
theorem completion_status_decode_witness : completionResult 2 = -3 :=
  ((completion_status_decode 2).2.2).mpr (by decide)

/-- Claim C5: the expected phase is 1 right after queue initialization, each
consumed completion advances the CQ head by 1 modulo 64 and toggles the expected
phase exactly when the head wraps to 0, and after 64 consumed completions from the
initial state the head is 0 again and the phase has toggled exactly once. -/
theorem phase_discipline :
    initialQueueState.cqPhase = true ∧
    (∀ q : QueueState, q.entries = 64 →
      (consumeCompletion q).cqHead = (q.cqHead + 1) % 64 ∧
      ((consumeCompletion q).cqPhase ≠ q.cqPhase ↔ (q.cqHead + 1) % 64 = 0)) ∧
    (consumeN 64 initialQueueState).cqHead = 0 ∧
    (consumeN 64 initialQueueState).cqPhase = false ∧
    toggleCount 64 initialQueueState = 1 := by
  refine ⟨rfl, ?_, by decide, by decide, by decide⟩
  intro q hq
  constructor
  · simp [consumeCompletion, hq]
  · by_cases h : (q.cqHead + 1) % 64 = 0
    · simp [consumeCompletion, hq, h]
    · simp [consumeCompletion, hq, h]

/-- Witness for claim C5 at the initial queue state. -/
theorem phase_discipline_witness :
    (consumeCompletion initialQueueState).cqHead = (initialQueueState.cqHead + 1) % 64 :=
  (phase_discipline.2.1 initialQueueState rfl).1

theorem buildForBuffer_spec (dmaBase : Nat) (allocResult : Option Nat) (buf len : Nat)
    (hbuf : buf ≠ 0) (hlen : 0 < len) :
    buildForBuffer dmaBase allocResult buf len =
      (if len ≤ 4096 - buf % 4096 then
         some { prp1 := physicalOf dmaBase buf, prp2 := 0, listContent := [], listPages := 0 }
       else if len - (4096 - buf % 4096) ≤ 4096 then
         some { prp1 := physicalOf dmaBase buf,
                prp2 := physicalOf dmaBase (buf - buf % 4096 + 4096),
                listContent := [], listPages := 0 }
       else
         match allocResult with
         | none => none
         | some listAddr =>
           some { prp1 := physicalOf dmaBase buf,
                  prp2 := physicalOf dmaBase listAddr,
                  listContent :=
                    (List.range ((len - (4096 - buf % 4096) + 4096 - 1) / 4096)).map
                      (fun i => physicalOf dmaBase (buf - buf % 4096 + 4096 + i * 4096)) ++
                    List.replicate
                      (((len - (4096 - buf % 4096) + 4096 - 1) / 4096 + 512 - 1) / 512 * 512 -
                        (len - (4096 - buf % 4096) + 4096 - 1) / 4096) 0,
                  listPages :=
                    ((len - (4096 - buf % 4096) + 4096 - 1) / 4096 + 512 - 1) / 512 }) := by
  unfold buildForBuffer
  rw [if_neg (by omega)]
  simp only [NVME_PAGE_SIZE, PRP_ENTRY_SIZE]
  simp only [show (4096 : Nat) - 1 = 4095 from rfl, show (4096 : Nat) / 8 = 512 from rfl]
  simp only [and_4095_eq_mod]

/-- Claim C4: BuildForBuffer sets PRP1 to the bus address of the buffer itself; sets
PRP2 to 0 when the length fits the first page's remainder; sets PRP2 to the bus
address of the page after the buffer's page when at most one further page is needed;
otherwise allocates a zeroed list region whose first ceil((L - first_remain)/4096)
8-byte entries are the bus addresses of the successive pages after the buffer's page,
pointing PRP2 at that region; and it fails only when the list allocation fails. -/
theorem prp_build (dmaBase : Nat) (allocResult : Option Nat) (buf len : Nat)
    (hbuf : buf ≠ 0) (hlen : 0 < len) :
    (∀ r, buildForBuffer dmaBase allocResult buf len = some r →
       r.prp1 = physicalOf dmaBase buf) ∧
    (len ≤ 4096 - buf % 4096 →
       buildForBuffer dmaBase allocResult buf len =
         some { prp1 := physicalOf dmaBase buf, prp2 := 0,
                listContent := [], listPages := 0 }) ∧
    (4096 - buf % 4096 < len → len - (4096 - buf % 4096) ≤ 4096 →
       buildForBuffer dmaBase allocResult buf len =
         some { prp1 := physicalOf dmaBase buf,
                prp2 := physicalOf dmaBase (buf - buf % 4096 + 4096),
                listContent := [], listPages := 0 }) ∧
    (4096 < len - (4096 - buf % 4096) →
       (∀ listAddr, allocResult = some listAddr →
          buildForBuffer dmaBase allocResult buf len =
            some { prp1 := physicalOf dmaBase buf,
                   prp2 := physicalOf dmaBase listAddr,
                   listContent :=
                     (List.range ((len - (4096 - buf % 4096) + 4096 - 1) / 4096)).map
                       (fun i => physicalOf dmaBase (buf - buf % 4096 + 4096 + i * 4096)) ++
                     List.replicate
                       (((len - (4096 - buf % 4096) + 4096 - 1) / 4096 + 512 - 1) / 512 * 512 -
                         (len - (4096 - buf % 4096) + 4096 - 1) / 4096) 0,
                   listPages :=
                     ((len - (4096 - buf % 4096) + 4096 - 1) / 4096 + 512 - 1) / 512 }) ∧
       (allocResult = none → buildForBuffer dmaBase allocResult buf len = none)) ∧
    (buildForBuffer dmaBase allocResult buf len = none →
       allocResult = none ∧ 4096 < len - (4096 - buf % 4096)) := by
  have hspec := buildForBuffer_spec dmaBase allocResult buf len hbuf hlen
  refine ⟨?_, ?_, ?_, ?_, ?_⟩
  · intro r hr
    rw [hspec] at hr
    by_cases c1 : len ≤ 4096 - buf % 4096
    · rw [if_pos c1] at hr
      cases hr
      rfl
    · rw [if_neg c1] at hr
      by_cases c2 : len - (4096 - buf % 4096) ≤ 4096
      · rw [if_pos c2] at hr
        cases hr
        rfl
      · rw [if_neg c2] at hr
        cases allocResult with
        | none => cases hr
        | some a =>
          simp only [Option.some.injEq] at hr
          rw [← hr]
  · intro h
    rw [hspec, if_pos h]
  · intro h1 h2
    rw [hspec, if_neg (by omega), if_pos h2]
  · intro h3
    constructor
    · intro listAddr hla
      rw [hspec, if_neg (by omega), if_neg (by omega), hla]
    · intro hla
      rw [hspec, if_neg (by omega), if_neg (by omega), hla]
  · intro hnone
    rw [hspec] at hnone
    by_cases c1 : len ≤ 4096 - buf % 4096
    · rw [if_pos c1] at hnone
      cases hnone
    · rw [if_neg c1] at hnone
      by_cases c2 : len - (4096 - buf % 4096) ≤ 4096
      · rw [if_pos c2] at hnone
        cases hnone
      · rw [if_neg c2] at hnone
        cases allocResult with
        | none => exact ⟨rfl, by omega⟩
        | some a => cases hnone

/-- Witness for claim C4: a page-aligned 512-byte buffer needs no PRP2. -/
theorem prp_build_witness :
    buildForBuffer 0 (some 8192) 4096 512 =
      some { prp1 := physicalOf 0 4096, prp2 := 0, listContent := [], listPages := 0 } :=
  (prp_build 0 (some 8192) 4096 512 (by decide) (by decide)).2.1 (by decide)

theorem free_push (s : AllocState) (d : Nat) (h : BlockHeader)
    (hfind : findHeader s.headers (d - HEADER_SIZE) = some h)
    (hsz : h.nSize = NVME_BLOCK_SIZE) (hal : h.nAlign = NVME_BLOCK_ALIGN)
    (hbd : h.nBoundary = NVME_BLOCK_BOUNDARY) :
    free s d = { s with freeList := (d - HEADER_SIZE) :: s.freeList } := by
  simp only [free]
  rw [hfind]
  simp [hsz, hal, hbd]

theorem free_leak (s : AllocState) (d : Nat) (h : BlockHeader)
    (hfind : findHeader s.headers (d - HEADER_SIZE) = some h)
    (hnc : ¬(h.nSize = NVME_BLOCK_SIZE ∧ h.nAlign = NVME_BLOCK_ALIGN ∧
             h.nBoundary = NVME_BLOCK_BOUNDARY)) :
    free s d = s := by
  simp only [free]
  rw [hfind]
  simp [hnc]

theorem allocate_pop (s : AllocState) (hd : Nat) (rest : List Nat)
    (size align boundary : Nat) (hfl : s.freeList = hd :: rest)
    (hsz : size ≤ NVME_BLOCK_SIZE) (hal : align ≤ NVME_BLOCK_ALIGN)
    (hbd : boundary ≤ NVME_BLOCK_BOUNDARY) :
    allocate s size align boundary = (some (hd + HEADER_SIZE), { s with freeList := rest }) := by
  unfold allocate
  rw [if_pos ⟨hsz, hal, hbd⟩, hfl]

theorem cycle_fixpoint (t : AllocState) (hd : Nat) (rest : List Nat) (h : BlockHeader)
    (hfl : t.freeList = hd :: rest) (hfind : findHeader t.headers hd = some h)
    (hsz : h.nSize = NVME_BLOCK_SIZE) (hal : h.nAlign = NVME_BLOCK_ALIGN)
    (hbd : h.nBoundary = NVME_BLOCK_BOUNDARY) :
    allocFreeCycle t = t := by
  unfold allocFreeCycle
  rw [allocate_pop t hd rest _ _ _ hfl (Nat.le_refl _) (Nat.le_refl _) (Nat.le_refl _)]
  show free { t with freeList := rest } (hd + HEADER_SIZE) = t
  simp only [free]
  have hsub : hd + HEADER_SIZE - HEADER_SIZE = hd := by omega
  rw [hsub]
  have hh : findHeader ({ t with freeList := rest } : AllocState).headers hd = some h := hfind
  rw [hh]
  simp only [hsz, hal, hbd, and_self, if_true]
  obtain ⟨ms, me, fl, hs⟩ := t
  simp only at hfl
  simp [hfl]

theorem cycleN_of_fixpoint (n : Nat) (t : AllocState) (hfix : allocFreeCycle t = t) :
    cycleN n t = t := by
  induction n with
  | zero => rfl
  | succ k ih =>
    show cycleN k (allocFreeCycle t) = t
    rw [hfix, ih]

theorem bump_success (s : AllocState) (size align boundary : Nat)
    (h : ¬ s.memEnd < bumpDataAddr s size align boundary + size) :
    bumpAllocate s size align boundary =
      (some (bumpDataAddr s size align boundary),
       { s with
           memStart := bumpDataAddr s size align boundary + size,
           headers := (bumpDataAddr s size align boundary - HEADER_SIZE,
             { nMagic := NVME_BLOCK_MAGIC, nSize := size, nAlign := align,
               nBoundary := boundary }) :: s.headers }) := by
  unfold bumpAllocate
  rw [if_neg h]

theorem allocate_empty_freeList (s : AllocState) (hfl : s.freeList = []) :
    allocate s NVME_BLOCK_SIZE NVME_BLOCK_ALIGN NVME_BLOCK_BOUNDARY =
      bumpAllocate s NVME_BLOCK_SIZE NVME_BLOCK_ALIGN NVME_BLOCK_BOUNDARY := by
  unfold allocate
  rw [if_pos ⟨Nat.le_refl _, Nat.le_refl _, Nat.le_refl _⟩, hfl]

theorem first_cycle_shape (s : AllocState) (hfl : s.freeList = [])
    (hsucc : ¬ s.memEnd <
      bumpDataAddr s NVME_BLOCK_SIZE NVME_BLOCK_ALIGN NVME_BLOCK_BOUNDARY + NVME_BLOCK_SIZE) :
    allocFreeCycle s =
      { s with
          memStart := bumpDataAddr s NVME_BLOCK_SIZE NVME_BLOCK_ALIGN NVME_BLOCK_BOUNDARY +
            NVME_BLOCK_SIZE,
          freeList :=
            [bumpDataAddr s NVME_BLOCK_SIZE NVME_BLOCK_ALIGN NVME_BLOCK_BOUNDARY - HEADER_SIZE],
          headers :=
            (bumpDataAddr s NVME_BLOCK_SIZE NVME_BLOCK_ALIGN NVME_BLOCK_BOUNDARY - HEADER_SIZE,
             { nMagic := NVME_BLOCK_MAGIC, nSize := NVME_BLOCK_SIZE, nAlign := NVME_BLOCK_ALIGN,
               nBoundary := NVME_BLOCK_BOUNDARY }) :: s.headers } := by
  unfold allocFreeCycle
  rw [allocate_empty_freeList s hfl, bump_success s _ _ _ hsucc]
  show free _ _ = _
  simp only [free, findHeader]
  simp [hfl]

/-- Claim C8: a freed block whose header records the canonical specification is
pushed on the free list, and a following Allocate whose request fits that
specification returns the very same block without moving the arena cursor; K
allocate-free cycles therefore consume the arena of a single allocation, for every
K at least 1; a freed block with a non-canonical header never enters the free list. -/
theorem allocator_recycle :
    (∀ (s : AllocState) (d : Nat) (h : BlockHeader),
       findHeader s.headers (d - HEADER_SIZE) = some h →
       h.nSize = NVME_BLOCK_SIZE → h.nAlign = NVME_BLOCK_ALIGN →
       h.nBoundary = NVME_BLOCK_BOUNDARY →
       free s d = { s with freeList := (d - HEADER_SIZE) :: s.freeList }) ∧
    (∀ (s : AllocState) (d : Nat) (h : BlockHeader) (size align boundary : Nat),
       findHeader s.headers (d - HEADER_SIZE) = some h →
       h.nSize = NVME_BLOCK_SIZE → h.nAlign = NVME_BLOCK_ALIGN →
       h.nBoundary = NVME_BLOCK_BOUNDARY → HEADER_SIZE ≤ d →
       size ≤ NVME_BLOCK_SIZE → align ≤ NVME_BLOCK_ALIGN → boundary ≤ NVME_BLOCK_BOUNDARY →
       allocate (free s d) size align boundary = (some d, s)) ∧
    (∀ (s : AllocState) (K : Nat),
       s.freeList = [] →
       (allocate s NVME_BLOCK_SIZE NVME_BLOCK_ALIGN NVME_BLOCK_BOUNDARY).1 ≠ none →
       1 ≤ K →
       cycleN K s = allocFreeCycle s) ∧
    (∀ (s : AllocState) (d : Nat) (h : BlockHeader),
       findHeader s.headers (d - HEADER_SIZE) = some h →
       ¬(h.nSize = NVME_BLOCK_SIZE ∧ h.nAlign = NVME_BLOCK_ALIGN ∧
         h.nBoundary = NVME_BLOCK_BOUNDARY) →
       free s d = s) := by
  refine ⟨free_push, ?_, ?_, free_leak⟩
  · intro s d h size align boundary hfind hsz hal hbd hd hs ha hb
    rw [free_push s d h hfind hsz hal hbd]
    rw [allocate_pop _ (d - HEADER_SIZE) s.freeList size align boundary rfl hs ha hb]
    rw [Nat.sub_add_cancel hd]
  · intro s K hfl hsucc hK
    have hbsucc : ¬ s.memEnd <
        bumpDataAddr s NVME_BLOCK_SIZE NVME_BLOCK_ALIGN NVME_BLOCK_BOUNDARY +
          NVME_BLOCK_SIZE := by
      intro hlt
      apply hsucc
      rw [allocate_empty_freeList s hfl]
      unfold bumpAllocate
      rw [if_pos hlt]
    have hshape := first_cycle_shape s hfl hbsucc
    have hfix : allocFreeCycle (allocFreeCycle s) = allocFreeCycle s := by
      rw [hshape]
      refine cycle_fixpoint _
        (bumpDataAddr s NVME_BLOCK_SIZE NVME_BLOCK_ALIGN NVME_BLOCK_BOUNDARY - HEADER_SIZE) []
        { nMagic := NVME_BLOCK_MAGIC, nSize := NVME_BLOCK_SIZE, nAlign := NVME_BLOCK_ALIGN,
          nBoundary := NVME_BLOCK_BOUNDARY } rfl ?_ rfl rfl rfl
      simp [findHeader]
    obtain ⟨j, rfl⟩ := Nat.exists_eq_add_of_le hK
    rw [Nat.add_comm 1 j]
    show cycleN j (allocFreeCycle s) = allocFreeCycle s
    exact cycleN_of_fixpoint j _ hfix

/-- Witness for claim C8: five cycles on a concrete arena equal one cycle. -/
theorem allocator_recycle_witness :
    cycleN 5 { memStart := 0x500000, memEnd := 0x800000, freeList := [], headers := [] } =
      allocFreeCycle { memStart := 0x500000, memEnd := 0x800000, freeList := [], headers := [] } :=
  allocator_recycle.2.2.1 _ 5 rfl (by decide) (by decide)

theorem submit_preserves (env : IoEnvironment) (opc nsid c10 c11 c12 p1 p2 : Nat)
    (s : DeviceState) :
    (submitIoCommand env opc nsid c10 c11 c12 p1 p2 s).2.1.ulOffset = s.ulOffset := by
  unfold submitIoCommand
  rcases henv : env.completion with _ | status <;> simp [henv]

theorem submit_cmds (env : IoEnvironment) (opc nsid c10 c11 c12 p1 p2 : Nat)
    (s : DeviceState) :
    (submitIoCommand env opc nsid c10 c11 c12 p1 p2 s).2.2 =
      [{ opc := opc, cid := s.sqTail % 2 ^ 16, nsid := nsid, prp1 := p1, prp2 := p2,
         cdw10 := c10, cdw11 := c11, cdw12 := c12 }] := by
  unfold submitIoCommand
  rcases henv : env.completion with _ | status <;> simp [henv]

theorem ioPassThrough_preserves (env : IoEnvironment) (dmaBase nsid lba blocks bufAddr : Nat)
    (w : Bool) (s : DeviceState) :
    (ioPassThrough env dmaBase nsid lba blocks bufAddr w s).2.1.ulOffset = s.ulOffset := by
  unfold ioPassThrough
  rcases hb : buildForBuffer dmaBase env.prpListAlloc bufAddr (blocks * NVME_LBA_SIZE) with
    _ | prp
  · simp [hb]
  · simp only [hb]
    exact submit_preserves ..

theorem deviceRead_preserves_offset (env : IoEnvironment) (dmaBase bufAddr count : Nat)
    (s : DeviceState) :
    (deviceRead env dmaBase bufAddr count s).2.1.ulOffset = s.ulOffset := by
  simp only [deviceRead]
  split
  · rfl
  · split
    · rfl
    · split
      · rfl
      · split <;> split <;> exact ioPassThrough_preserves ..

theorem deviceWrite_preserves_offset (env : IoEnvironment) (dmaBase bufAddr count : Nat)
    (s : DeviceState) :
    (deviceWrite env dmaBase bufAddr count s).2.1.ulOffset = s.ulOffset := by
  simp only [deviceWrite]
  split
  · rfl
  · split
    · rfl
    · split
      · rfl
      · split <;> split <;> exact ioPassThrough_preserves ..

theorem ioPassThrough_cmds_fields (env : IoEnvironment)
    (dmaBase nsid lba blocks bufAddr : Nat) (w : Bool) (s : DeviceState)
    (c : SubmittedCommand)
    (hc : c ∈ (ioPassThrough env dmaBase nsid lba blocks bufAddr w s).2.2) :
    c.opc = (if w then 1 else 2) ∧ c.cdw10 = lba % U32 ∧ c.cdw11 = lba / 2 ^ 32 % U32 := by
  unfold ioPassThrough at hc
  rcases hb : buildForBuffer dmaBase env.prpListAlloc bufAddr (blocks * NVME_LBA_SIZE) with
    _ | prp
  · rw [hb] at hc
    simp at hc
  · rw [hb] at hc
    simp only [submit_cmds, List.mem_singleton] at hc
    subst hc
    exact ⟨rfl, rfl, rfl⟩

theorem deviceRead_cmds_fields (env : IoEnvironment) (dmaBase bufAddr count : Nat)
    (s : DeviceState) (c : SubmittedCommand)
    (hc : c ∈ (deviceRead env dmaBase bufAddr count s).2.2) :
    c.opc = 2 ∧ c.cdw10 = s.ulOffset / 512 % U32 ∧ c.cdw11 = 0 := by
  simp only [deviceRead] at hc
  split at hc
  · simp at hc
  · split at hc
    · simp at hc
    · split at hc
      · simp at hc
      · split at hc <;> split at hc <;>
        · have h := ioPassThrough_cmds_fields _ _ _ _ _ _ _ _ _ hc
          refine ⟨by simpa using h.1, ?_, ?_⟩
          · rw [h.2.1]
            show s.ulOffset / NVME_LBA_SIZE % U32 % U32 = s.ulOffset / 512 % U32
            unfold NVME_LBA_SIZE U32
            omega
          · rw [h.2.2]
            show s.ulOffset / NVME_LBA_SIZE % U32 / 2 ^ 32 % U32 = 0
            unfold NVME_LBA_SIZE U32
            omega

/-- Claim C2: the claim requires the starting LBA to equal offset/512 exactly, with
its low 32 bits in CDW10 and its high 32 bits in CDW11, for all 64-bit offsets
including 2^32 blocks or more.  Read stores offset/512 into a 32-bit unsigned local
(nvme.cpp line 444) before passing it to the u64 LBA parameter of IoPassThrough, so
at offset 2^41 (LBA 2^32) the submitted command carries CDW10 = 0 and CDW11 = 0,
while the claim requires CDW11 = 1. -/
theorem lba_truncation_code_bug :
    (deviceRead okEnv 0 4096 512 bigOffsetState).2.2 =
      [{ opc := 2, cid := 0, nsid := 1, prp1 := 4096, prp2 := 0,
         cdw10 := 0, cdw11 := 0, cdw12 := 0 }] ∧
    bigOffsetState.ulOffset / 512 = 2 ^ 32 ∧
    ((2 : Nat) ^ 32) % U32 = 0 ∧
    ((2 : Nat) ^ 32) / 2 ^ 32 % U32 = 1 := by
  refine ⟨by decide, by decide, by decide, by decide⟩

/-- Claim C7: a Read or Write with a misaligned byte cursor, a zero count, or a
misaligned count returns BAD_PARAM with no command submitted and the device state
untouched. -/
theorem bad_param_rejected (env : IoEnvironment) (dmaBase bufAddr count : Nat)
    (s : DeviceState)
    (h : s.ulOffset % 512 ≠ 0 ∨ count = 0 ∨ count % 512 ≠ 0) :
    deviceRead env dmaBase bufAddr count s = (NVME_STATUS_ERROR_BAD_PARAM, s, []) ∧
    deviceWrite env dmaBase bufAddr count s = (NVME_STATUS_ERROR_BAD_PARAM, s, []) := by
  have h1 : s.ulOffset &&& (NVME_LBA_SIZE - 1) = s.ulOffset % 512 := and_511_eq_mod _
  have h2 : count &&& (NVME_LBA_SIZE - 1) = count % 512 := and_511_eq_mod _
  refine ⟨?_, ?_⟩
  · simp only [deviceRead]
    rw [h1, h2]
    by_cases hoff : s.ulOffset % 512 = 0
    · have hcnt : count = 0 ∨ count % 512 ≠ 0 := h.resolve_left (fun hne => hne hoff)
      rw [if_neg (by omega), if_pos hcnt]
    · rw [if_pos hoff]
  · simp only [deviceWrite]
    rw [h1, h2]
    by_cases hoff : s.ulOffset % 512 = 0
    · have hcnt : count = 0 ∨ count % 512 ≠ 0 := h.resolve_left (fun hne => hne hoff)
      rw [if_neg (by omega), if_pos hcnt]
    · rw [if_pos hoff]

/-- Witness for claim C7 at a misaligned cursor. -/
theorem bad_param_rejected_witness :
    deviceRead okEnv 0 4096 512
        { ulOffset := 1, namespaceSize := 2 ^ 30, sqTail := 0, cqHead := 0, cqPhase := true } =
      (NVME_STATUS_ERROR_BAD_PARAM,
       { ulOffset := 1, namespaceSize := 2 ^ 30, sqTail := 0, cqHead := 0, cqPhase := true },
       []) :=
  (bad_param_rejected okEnv 0 4096 512 _ (Or.inl (by decide))).1

/-- Claim C9: Read and Write never modify the stored byte offset on any path, only
Seek changes it, and the commands submitted by two consecutive Reads without an
intervening Seek both carry the LBA derived from the same original offset. -/
theorem offset_frame (env env' : IoEnvironment)
    (dmaBase bufAddr bufAddr' count count' : Nat) (s : DeviceState) :
    (deviceRead env dmaBase bufAddr count s).2.1.ulOffset = s.ulOffset ∧
    (deviceWrite env dmaBase bufAddr count s).2.1.ulOffset = s.ulOffset ∧
    (∀ off, (deviceSeek off s).2.ulOffset = off) ∧
    (∀ c ∈ (deviceRead env dmaBase bufAddr count s).2.2,
       c.cdw10 = s.ulOffset / 512 % U32 ∧ c.cdw11 = 0) ∧
    (∀ c ∈ (deviceRead env' dmaBase bufAddr' count'
             (deviceRead env dmaBase bufAddr count s).2.1).2.2,
       c.cdw10 = s.ulOffset / 512 % U32 ∧ c.cdw11 = 0) := by
  refine ⟨deviceRead_preserves_offset .., deviceWrite_preserves_offset .., fun off => rfl,
    ?_, ?_⟩
  · intro c hc
    exact (deviceRead_cmds_fields env dmaBase bufAddr count s c hc).2
  · intro c hc
    have hfields := (deviceRead_cmds_fields env' dmaBase bufAddr' count' _ c hc).2
    rwa [deviceRead_preserves_offset] at hfields

/-- Witness for claim C9 at a concrete state. -/
theorem offset_frame_witness :
    (deviceRead okEnv 0 4096 512
        { ulOffset := 512, namespaceSize := 2 ^ 30, sqTail := 0, cqHead := 0,
          cqPhase := true }).2.1.ulOffset = 512 :=
  (offset_frame okEnv okEnv 0 4096 4096 512 512 _).1

theorem submit_ns (env : IoEnvironment) (opc nsid c10 c11 c12 p1 p2 : Nat)
    (off nsA nsB st ch : Nat) (cp : Bool) :
    submitIoCommand env opc nsid c10 c11 c12 p1 p2 ⟨off, nsA, st, ch, cp⟩ =
      ((submitIoCommand env opc nsid c10 c11 c12 p1 p2 ⟨off, nsB, st, ch, cp⟩).1,
       { (submitIoCommand env opc nsid c10 c11 c12 p1 p2 ⟨off, nsB, st, ch, cp⟩).2.1 with
           namespaceSize := nsA },
       (submitIoCommand env opc nsid c10 c11 c12 p1 p2 ⟨off, nsB, st, ch, cp⟩).2.2) := by
  unfold submitIoCommand
  rcases henv : env.completion with _ | status <;> simp [henv]

theorem ioPassThrough_ns (env : IoEnvironment) (dmaBase nsid lba blocks bufAddr : Nat)
    (w : Bool) (off nsA nsB st ch : Nat) (cp : Bool) :
    ioPassThrough env dmaBase nsid lba blocks bufAddr w ⟨off, nsA, st, ch, cp⟩ =
      ((ioPassThrough env dmaBase nsid lba blocks bufAddr w ⟨off, nsB, st, ch, cp⟩).1,
       { (ioPassThrough env dmaBase nsid lba blocks bufAddr w ⟨off, nsB, st, ch, cp⟩).2.1 with
           namespaceSize := nsA },
       (ioPassThrough env dmaBase nsid lba blocks bufAddr w ⟨off, nsB, st, ch, cp⟩).2.2) := by
  unfold ioPassThrough
  rcases hb : buildForBuffer dmaBase env.prpListAlloc bufAddr (blocks * NVME_LBA_SIZE) with
    _ | prp
  · simp [hb]
  · simp only [hb]
    exact submit_ns ..

theorem deviceRead_ns (env : IoEnvironment) (dmaBase bufAddr count : Nat)
    (off nsA nsB st ch : Nat) (cp : Bool) :
    deviceRead env dmaBase bufAddr count ⟨off, nsA, st, ch, cp⟩ =
      ((deviceRead env dmaBase bufAddr count ⟨off, nsB, st, ch, cp⟩).1,
       { (deviceRead env dmaBase bufAddr count ⟨off, nsB, st, ch, cp⟩).2.1 with
           namespaceSize := nsA },
       (deviceRead env dmaBase bufAddr count ⟨off, nsB, st, ch, cp⟩).2.2) := by
  simp only [deviceRead]
  by_cases h1 : off &&& (NVME_LBA_SIZE - 1) ≠ 0
  · simp [h1]
  · have h1' : off &&& (NVME_LBA_SIZE - 1) = 0 := not_ne_iff.mp h1
    by_cases h2 : count = 0 ∨ count &&& (NVME_LBA_SIZE - 1) ≠ 0
    · simp [h1', h2]
    · by_cases h3 : env.cacheAligned = false ∧ env.dmaAllocOk = false
      · simp [h1', h2, h3]
      · simp only [h1', h2, h3, ne_eq, not_true_eq_false, not_false_eq_true, if_false,
          if_true, ite_false, ite_true, if_neg, reduceIte]
        rw [ioPassThrough_ns env dmaBase NSID (off / NVME_LBA_SIZE % U32)
          (count / NVME_LBA_SIZE % U32) (if env.cacheAligned then bufAddr else env.bounceAddr)
          false off nsA nsB st ch cp]
        by_cases hr : (ioPassThrough env dmaBase NSID (off / NVME_LBA_SIZE % U32)
            (count / NVME_LBA_SIZE % U32)
            (if env.cacheAligned then bufAddr else env.bounceAddr)
            false ⟨off, nsB, st, ch, cp⟩).1 ≠ NVME_STATUS_OK
        · simp [hr]
        · simp [hr]

theorem deviceWrite_ns (env : IoEnvironment) (dmaBase bufAddr count : Nat)
    (off nsA nsB st ch : Nat) (cp : Bool) :
    deviceWrite env dmaBase bufAddr count ⟨off, nsA, st, ch, cp⟩ =
      ((deviceWrite env dmaBase bufAddr count ⟨off, nsB, st, ch, cp⟩).1,
       { (deviceWrite env dmaBase bufAddr count ⟨off, nsB, st, ch, cp⟩).2.1 with
           namespaceSize := nsA },
       (deviceWrite env dmaBase bufAddr count ⟨off, nsB, st, ch, cp⟩).2.2) := by
  simp only [deviceWrite]
  by_cases h1 : off &&& (NVME_LBA_SIZE - 1) ≠ 0
  · simp [h1]
  · have h1' : off &&& (NVME_LBA_SIZE - 1) = 0 := not_ne_iff.mp h1
    by_cases h2 : count = 0 ∨ count &&& (NVME_LBA_SIZE - 1) ≠ 0
    · simp [h1', h2]
    · by_cases h3 : env.cacheAligned = false ∧ env.dmaAllocOk = false
      · simp [h1', h2, h3]
      · simp only [h1', h2, h3, ne_eq, not_true_eq_false, not_false_eq_true, if_false,
          if_true, ite_false, ite_true, if_neg, reduceIte]
        rw [ioPassThrough_ns env dmaBase NSID (off / NVME_LBA_SIZE % U32)
          (count / NVME_LBA_SIZE % U32) (if env.cacheAligned then bufAddr else env.bounceAddr)
          true off nsA nsB st ch cp]
        by_cases hr : (ioPassThrough env dmaBase NSID (off / NVME_LBA_SIZE % U32)
            (count / NVME_LBA_SIZE % U32)
            (if env.cacheAligned then bufAddr else env.bounceAddr)
            true ⟨off, nsB, st, ch, cp⟩).1 ≠ NVME_STATUS_OK
        · simp [hr]
        · simp [hr]

/-- Claim C10: Read and Write never compare offset + count against the namespace
size: their result and submitted commands are identical for any two namespace sizes,
and for every 512-aligned cursor and non-zero 512-multiple count - including
requests extending past the end of the namespace - the read command is built into
PRPs and submitted, with the outcome determined solely by the completion status
(timeout, OK, or the decoded controller error), never by a local range check. -/
theorem no_local_bounds_check (env : IoEnvironment) (dmaBase bufAddr count : Nat)
    (off nsA nsB st ch : Nat) (cp : Bool) :
    (deviceRead env dmaBase bufAddr count ⟨off, nsA, st, ch, cp⟩ =
       ((deviceRead env dmaBase bufAddr count ⟨off, nsB, st, ch, cp⟩).1,
        { (deviceRead env dmaBase bufAddr count ⟨off, nsB, st, ch, cp⟩).2.1 with
            namespaceSize := nsA },
        (deviceRead env dmaBase bufAddr count ⟨off, nsB, st, ch, cp⟩).2.2)) ∧
    (deviceWrite env dmaBase bufAddr count ⟨off, nsA, st, ch, cp⟩ =
       ((deviceWrite env dmaBase bufAddr count ⟨off, nsB, st, ch, cp⟩).1,
        { (deviceWrite env dmaBase bufAddr count ⟨off, nsB, st, ch, cp⟩).2.1 with
            namespaceSize := nsA },
        (deviceWrite env dmaBase bufAddr count ⟨off, nsB, st, ch, cp⟩).2.2)) ∧
    (off % 512 = 0 → count ≠ 0 → count % 512 = 0 → env.cacheAligned = true →
     ∀ prp, buildForBuffer dmaBase env.prpListAlloc bufAddr (count / 512 % U32 * 512) =
         some prp →
       (deviceRead env dmaBase bufAddr count ⟨off, nsA, st, ch, cp⟩).2.2 =
         [{ opc := 2, cid := st % 2 ^ 16, nsid := 1, prp1 := prp.prp1, prp2 := prp.prp2,
            cdw10 := off / 512 % U32 % U32, cdw11 := off / 512 % U32 / 2 ^ 32 % U32,
            cdw12 := (count / 512 % U32 + (U32 - 1)) % U32 }] ∧
       (deviceRead env dmaBase bufAddr count ⟨off, nsA, st, ch, cp⟩).1 =
         (match env.completion with
          | none => NVME_STATUS_ERROR_TIMEOUT
          | some status =>
            if completionResult status = 0 then Int.ofNat count
            else completionResult status)) := by
  refine ⟨deviceRead_ns .., deviceWrite_ns .., ?_⟩
  intro hoff hcnt0 hcnt hca prp hprp
  have e1 : off &&& (NVME_LBA_SIZE - 1) = off % 512 := and_511_eq_mod _
  have e2 : count &&& (NVME_LBA_SIZE - 1) = count % 512 := and_511_eq_mod _
  have hprp' : buildForBuffer dmaBase env.prpListAlloc bufAddr
      (count / NVME_LBA_SIZE % U32 * NVME_LBA_SIZE) = some prp := hprp
  simp only [deviceRead, ioPassThrough]
  rw [e1, e2]
  rw [if_neg (by simp [hoff]), if_neg (by simp [hcnt0, hcnt]), if_neg (by simp [hca]),
    if_pos hca]
  rw [hprp']
  rcases henv : env.completion with _ | status
  · simp only [submitIoCommand, henv, NVME_STATUS_ERROR_TIMEOUT, NVME_STATUS_OK]
    simp
    exact ⟨rfl, rfl, rfl, rfl⟩
  · by_cases hres : completionResult status = 0
    · simp only [submitIoCommand, henv, NVME_STATUS_OK]
      simp [hres]
      exact ⟨rfl, rfl, rfl, rfl⟩
    · simp only [submitIoCommand, henv, NVME_STATUS_OK]
      simp [hres]
      exact ⟨rfl, rfl, rfl, rfl⟩

/-- Witness for claim C10: a 512-byte read at offset 0 on a namespace of size 0 is
still submitted and succeeds when the controller reports success. -/
theorem no_local_bounds_check_witness :
    (deviceRead okEnv 0 4096 512 ⟨0, 0, 0, 0, true⟩).2.2 =
      [{ opc := 2, cid := 0, nsid := 1, prp1 := 4096, prp2 := 0, cdw10 := 0, cdw11 := 0,
         cdw12 := 0 }] ∧
    (deviceRead okEnv 0 4096 512 ⟨0, 0, 0, 0, true⟩).1 = (512 : Int) := by
  have h := (no_local_bounds_check okEnv 0 4096 512 0 0 0 0 0 true).2.2 rfl (by decide) rfl
    rfl ⟨4096, 0, [], 0⟩ (by decide)
  exact ⟨h.1, h.2.trans (by decide)⟩

end NVMe
